import Mathlib

/-!
# Verification of the SocialFlow AI subscription-gating and scheduling core

Shallow embedding of the subscription-gating, workspace/RBAC and
post-scheduling core of the SocialFlow AI repository, together with the
client-side components translated from the JSX sources
(`SubscriptionGuard.jsx`, the `AppRouter` route table in `App.js`,
`PostCreator.jsx` form logic, `LandingPage.jsx` pricing table, and the PRD
plan table).  The backend request handlers (`server.py`) are not part of the
source tree; a definition that models them is marked `Modelled from the
spec:` and follows the specification's wording.
-/

set_option linter.unusedVariables false
set_option linter.unnecessarySeqFocus false

namespace SocialFlow

/-- Denial reasons of the error taxonomy (spec §7). -/
inductive DenyReason
  | Expired
  | LimitReached
  | FeatureDisabled
  | InsufficientRole
  deriving DecidableEq, Repr

/-- Decision returned by the entitlement gate (spec §4.2). -/
inductive Decision
  | Allow
  | Deny (reason : DenyReason)
  deriving DecidableEq, Repr

/-- The numeric limit counters of a plan's limit set (spec §3, Plan). -/
inductive Counter
  | posts_per_month
  | templates
  | landing_pages
  | ai_generations_per_month
  | social_accounts
  | team_members
  deriving DecidableEq, Repr

/-- The boolean feature flags of a plan's limit set (spec §3, Plan). -/
inductive Feature
  | ai_content
  | lead_capture
  | white_label
  | api_access
  deriving DecidableEq, Repr

/-- Workspace roles (spec §3, Membership). -/
inductive Role
  | owner
  | admin
  | editor
  | viewer
  deriving DecidableEq, Repr

/-- Modelled from the spec: the Plan record (spec §3); each numeric limit is a
non-negative integer or the sentinel `-1` meaning unlimited (spec §4.1), plus
the boolean feature flags. -/
structure Plan where
  name : String
  monthly_price : Nat
  limits : Counter → Int
  features : Feature → Bool

/-- `isUnlimited` uses the sentinel convention of spec §4.1 ("e.g., -1"). -/
def isUnlimited (l : Int) : Bool := l == -1

/-- Per-tenant Subscription State with its derived `is_expired` and
`days_remaining` fields (spec §3). -/
structure SubscriptionState where
  is_expired : Bool
  days_remaining : Option Int
  deriving DecidableEq, Repr

/-- Actions submitted to the entitlement gate (spec §4.2): the actions of the
expiry allow-list, the creation actions (each tied to a numeric limit
counter, AI generation additionally to the `ai_content` flag, and a team
invite carrying its inviter role), and the purely feature-flagged actions. -/
inductive Action
  | readOwnSubscription
  | changePlan
  | readOwnSettings
  | updateOwnSettings
  | createPost
  | createTemplate
  | createLandingPage
  | aiGenerate
  | connectSocialAccount
  | inviteMember (inviterRole : Role)
  | leadCaptureImport
  | apiAccess
  | whiteLabel
  deriving DecidableEq, Repr

/-- The explicit allow-list under expiry (spec §4.2): "read own subscription,"
"change plan," and "read/update own settings". -/
def expiredAllowList : Action → Bool
  | .readOwnSubscription => true
  | .changePlan => true
  | .readOwnSettings => true
  | .updateOwnSettings => true
  | _ => false

/-- Modelled from the spec: the numeric limit counter gating each creation
action (spec §3 limit set and §4.2): posts, templates, landing pages, AI
generations per month, social accounts, and team members for invites; the
read/settings actions and the purely feature-flagged actions consume no
counter. -/
def actionCounter : Action → Option Counter
  | .createPost => some .posts_per_month
  | .createTemplate => some .templates
  | .createLandingPage => some .landing_pages
  | .aiGenerate => some .ai_generations_per_month
  | .connectSocialAccount => some .social_accounts
  | .inviteMember _ => some .team_members
  | _ => none

/-- Modelled from the spec: the boolean feature flag consulted for the
feature-flagged actions (spec §4.2): "AI generation, lead capture import, API
access, white-label". -/
def actionFlag : Action → Option Feature
  | .aiGenerate => some .ai_content
  | .leadCaptureImport => some .lead_capture
  | .apiAccess => some .api_access
  | .whiteLabel => some .white_label
  | _ => none

/-- Whether the feature-flag check denies the action under the plan
(spec §4.2): a feature-flagged action is "denied outright when the
corresponding boolean flag is false, independent of numeric usage". -/
def flagDenied (plan : Plan) (a : Action) : Bool :=
  match actionFlag a with
  | some f => !plan.features f
  | none => false

/-- Whether the role check denies the action (spec §4.2): "Team invites
additionally require: inviter role ∈ {owner, admin}"; no other action carries
a role requirement. -/
def roleDenied : Action → Bool
  | .inviteMember r => !(r == .owner || r == .admin)
  | _ => false

/-- Modelled from the spec: `authorize` (spec §4.2) — the backend entitlement
gate lives in `server.py`, which is not under src/.  The checks are applied in
the order the spec lists them: the expiry allow-list first ("if
`subscription.is_expired` is true, deny every action except" the allow-list),
then the feature flag of the action ("denied outright when the corresponding
boolean flag is false, independent of numeric usage"), then the inviter-role
requirement of a team invite (listed before the team-size check, "first
failing check determines the denial reason"), and finally the numeric limit
of the action's counter ("denied when `plan.limits[c]` is not unlimited and
`usage[c] >= plan.limits[c]`").  A pure decision function over the provided
snapshots. -/
def authorize (plan : Plan) (sub : SubscriptionState) (usage : Counter → Nat)
    (a : Action) : Decision :=
  if sub.is_expired ∧ expiredAllowList a = false then
    .Deny .Expired
  else if flagDenied plan a then
    .Deny .FeatureDisabled
  else if roleDenied a then
    .Deny .InsufficientRole
  else
    match actionCounter a with
    | some c =>
        if isUnlimited (plan.limits c) = false ∧ plan.limits c ≤ (usage c : Int) then
          .Deny .LimitReached
        else
          .Allow
    | none => .Allow

/-! ## Client-side subscription guard (SubscriptionGuard.jsx) -/

/-- The `subscription_status` object of the `GET /subscription` response as read
by `SubscriptionGuard.jsx` (lines 38-39). -/
structure SubStatusData where
  is_expired : Bool
  days_remaining : Option Int
  deriving DecidableEq, Repr

/-- The `GET /subscription` response body as read by `SubscriptionGuard.jsx`;
the optional chaining `subscription?.subscription_status?...` makes the inner
object optional as well. -/
structure SubscriptionData where
  subscription_status : Option SubStatusData
  plan_name : Option String
  deriving DecidableEq, Repr

/-- What `SubscriptionGuard` renders once loading has finished
(SubscriptionGuard.jsx lines 29-108): the expiry card (children blocked), the
amber warning banner above the children, or the children alone. -/
inductive GuardRender
  | blockedExpired
  | warnBanner
  | childrenOnly
  deriving DecidableEq, Repr

/-- `subscription?.subscription_status?.is_expired` coerced to a truth value:
a missing object makes the chained access `undefined`, which is falsy in the
`if (isExpired)` conditional (line 42).  `none` at the outer level models the
fetch having failed, leaving the `subscription` state `null` (lines 18-27). -/
def guardIsExpired : Option SubscriptionData → Bool
  | none => false
  | some s =>
      match s.subscription_status with
      | none => false
      | some st => st.is_expired

/-- `subscription?.subscription_status?.days_remaining`, with `none` covering
both the JS `undefined` (missing object) and `null` cases: in
`daysRemaining !== null && daysRemaining <= 3 && daysRemaining > 0` (line 89)
both fall through to "no banner" (`undefined <= 3` is false, and
`null !== null` is false). -/
def guardDaysRemaining : Option SubscriptionData → Option Int
  | none => none
  | some s =>
      match s.subscription_status with
      | none => none
      | some st => st.days_remaining

/-- The render logic of `SubscriptionGuard.jsx` after loading: the expiry card
iff `isExpired` is truthy (line 42); otherwise the warning banner plus children
iff `0 < daysRemaining ≤ 3` (line 89); otherwise the children alone
(line 108). -/
def subscriptionGuardRender (subscription : Option SubscriptionData) : GuardRender :=
  if guardIsExpired subscription then .blockedExpired
  else
    match guardDaysRemaining subscription with
    | some d => if d ≤ 3 ∧ 0 < d then .warnBanner else .childrenOnly
    | none => .childrenOnly

/-- One `<Route>` of `AppRouter` (App.js lines 246-270): `guard = none` for a
public route, `some b` for a route wrapped in `ProtectedRoute` with
`requireSubscription = b` (the prop defaults to `true` and is written as
`false` only where it appears explicitly in the JSX). -/
structure RouteEntry where
  path : String
  guard : Option Bool
  deriving DecidableEq, Repr

/-- The route table of `AppRouter` (App.js lines 246-270). -/
def appRoutes : List RouteEntry :=
  [ ⟨"/", none⟩,
    ⟨"/login", none⟩,
    ⟨"/register", none⟩,
    ⟨"/p/:slug", none⟩,
    ⟨"/dashboard", some true⟩,
    ⟨"/posts", some true⟩,
    ⟨"/templates", some true⟩,
    ⟨"/templates/editor", some true⟩,
    ⟨"/templates/editor/:templateId", some true⟩,
    ⟨"/landing-pages", some true⟩,
    ⟨"/leads", some true⟩,
    ⟨"/campaigns", some true⟩,
    ⟨"/analytics", some true⟩,
    ⟨"/social-accounts", some true⟩,
    ⟨"/workspace", some true⟩,
    ⟨"/subscription", some false⟩,
    ⟨"/subscription/success", some false⟩,
    ⟨"/settings", some false⟩ ]

/-- `ProtectedRoute` (App.js lines 213-235) with a signed-in user: wraps its
children in `SubscriptionGuard` iff `requireSubscription`. -/
def protectedRouteRender (requireSubscription : Bool)
    (subscription : Option SubscriptionData) : GuardRender :=
  if requireSubscription then subscriptionGuardRender subscription
  else .childrenOnly

/-! ## Post creation form (PostCreator.jsx) -/

/-- The `form` state of `PostCreator.jsx` (lines 45-54). -/
structure PostForm where
  title : String
  caption : String
  hashtags : List String
  hashtagInput : String
  platforms : List String
  image_url : String
  scheduled_at : String
  status : String
  deriving DecidableEq, Repr

/-- The initial form state (PostCreator.jsx lines 45-54 and `resetForm`,
lines 103-114): all fields empty and `status: "draft"`. -/
def initialForm : PostForm :=
  { title := "", caption := "", hashtags := [], hashtagInput := "",
    platforms := [], image_url := "", scheduled_at := "", status := "draft" }

/-- JS `String.prototype.replace` with a string pattern replaces only the
FIRST occurrence: the replace call of `addHashtag` drops the first hash
character of the input and leaves any later ones in place. -/
def removeFirstHashAux : List Char → List Char
  | [] => []
  | c :: cs => if c = '#' then cs else c :: removeFirstHashAux cs

/-- The replace call of `addHashtag` on the character sequence of `s`. -/
def removeFirstHash (s : String) : String := ⟨removeFirstHashAux s.data⟩

/-- A character of the JS whitespace class (as relevant to these inputs). -/
def isSpaceChar (c : Char) : Bool :=
  c = ' ' || c = '\t' || c = '\n' || c = '\r'

/-- Drop leading whitespace characters. -/
def dropLeadingSpace : List Char → List Char
  | [] => []
  | c :: cs => if isSpaceChar c then dropLeadingSpace cs else c :: cs

/-- JS `String.prototype.trim`: whitespace removed from both ends. -/
def jsTrim (s : String) : String :=
  ⟨(dropLeadingSpace ((dropLeadingSpace s.data).reverse)).reverse⟩

/-- `addHashtag` (PostCreator.jsx lines 144-151): if the trimmed pending input
is non-empty (JS truthiness), compute the tag by removing the first hash
character and trimming; if the tag is not already present, append it and clear
the input; otherwise leave the form unchanged. -/
def addHashtag (f : PostForm) : PostForm :=
  if jsTrim f.hashtagInput ≠ "" then
    let tag := jsTrim (removeFirstHash f.hashtagInput)
    if f.hashtags.contains tag then f
    else { f with hashtags := f.hashtags ++ [tag], hashtagInput := "" }
  else f

/-- `removeHashtag` (PostCreator.jsx lines 153-155):
`form.hashtags.filter(t => t !== tag)`. -/
def removeHashtag (tag : String) (f : PostForm) : PostForm :=
  { f with hashtags := f.hashtags.filter (fun t => t ≠ tag) }

/-- The request payload built by `handleSubmit` (PostCreator.jsx lines 74-82);
`form.image_url || null` and `form.scheduled_at || null` send `null` for the
empty string. -/
structure PostPayload where
  title : String
  caption : String
  hashtags : List String
  platforms : List String
  image_url : Option String
  scheduled_at : Option String
  status : String
  deriving DecidableEq, Repr

/-- `handleSubmit`'s payload construction (PostCreator.jsx lines 74-82). -/
def mkPayload (f : PostForm) : PostPayload :=
  { title := f.title, caption := f.caption, hashtags := f.hashtags,
    platforms := f.platforms,
    image_url := if f.image_url = "" then none else some f.image_url,
    scheduled_at := if f.scheduled_at = "" then none else some f.scheduled_at,
    status := f.status }

/-- The "Publish Now" button (PostCreator.jsx lines 360-368):
`onClick={() => setForm({ ...form, status: 'published' })}`. -/
def clickPublishNow (f : PostForm) : PostForm := { f with status := "published" }

/-! ## Post status and scheduler -/

/-- Post status (spec §3 and §4.4; `failed` is the terminal state entered when
the Publish Connector reports an error). -/
inductive PostStatus
  | draft
  | scheduled
  | published
  | failed
  deriving DecidableEq, Repr

/-- Modelled from the spec: the status derivation of the `POST /posts` handler
in `server.py`, which is not under src/.  Per the spec the stored status is
derived from the presence and futurity of `scheduled_at` alone — "status is
`scheduled` iff `scheduled_at` is present and in the future at creation time"
— otherwise the post is a draft.  Timestamps are epoch naturals. -/
def derivedStatus (scheduled_at : Option Nat) (now : Nat) : PostStatus :=
  match scheduled_at with
  | some t => if now < t then .scheduled else .draft
  | none => .draft

/-- The stored Post record produced by post creation (spec §3). -/
structure CreatedPost where
  title : String
  caption : String
  hashtags : List String
  platforms : List String
  status : PostStatus
  scheduled_at : Option Nat
  deriving DecidableEq, Repr

/-- Modelled from the spec: the `POST /posts` handler (`server.py`, not under
src/) builds the stored Post from the request payload (whose `scheduled_at`
string, when present, has been parsed to the epoch time `sched`), deriving the
status via `derivedStatus` and ignoring the payload's caller-supplied `status`
field. -/
def createPost (p : PostPayload) (sched : Option Nat) (now : Nat) : CreatedPost :=
  { title := p.title, caption := p.caption, hashtags := p.hashtags,
    platforms := p.platforms, status := derivedStatus sched now,
    scheduled_at := sched }

/-- A stored Post as seen by the scheduler (spec §3): status, optional due
timestamp, optional publish result (the external id). -/
structure SPost where
  post_id : Nat
  status : PostStatus
  scheduled_at : Option Nat
  publish_result : Option Nat
  deriving DecidableEq, Repr

/-- Outcome of one Publish Connector call (spec §4.4): a publish result, or an
error already caught at the connector boundary and returned as a value
(`PublishError`), never an exception. -/
inductive ConnOutcome
  | ok (result : Nat)
  | fail
  deriving DecidableEq, Repr

/-- Modelled from the spec: a due post has status `scheduled` and
`scheduled_at <= now` (spec §4.4, `listDue`). -/
def isDue (now : Nat) (p : SPost) : Bool :=
  p.status == .scheduled &&
    (match p.scheduled_at with
     | some t => decide (t ≤ now)
     | none => false)

/-- Modelled from the spec: applying one connector outcome to a due post
(spec §4.4, `process`): on success set status `published` and attach the
publish result; on error set status `failed` and retain the post. -/
def applyOutcome (p : SPost) : ConnOutcome → SPost
  | .ok r => { p with status := .published, publish_result := some r }
  | .fail => { p with status := .failed }

/-- Modelled from the spec: `process(now)` (spec §4.4, `server.py` not under
src/) sweeps the store sequentially: each due post's connector is invoked and
its outcome applied; every other post is untouched.  A connector error is a
returned value (caught at the connector boundary), so it cannot abort the rest
of the sweep.  The second component is the list of post ids whose connector
was invoked, in sweep order. -/
def processSweep (connector : SPost → ConnOutcome) (now : Nat) :
    List SPost → List SPost × List Nat
  | [] => ([], [])
  | p :: ps =>
      let rest := processSweep connector now ps
      if isDue now p then
        (applyOutcome p (connector p) :: rest.1, p.post_id :: rest.2)
      else
        (p :: rest.1, rest.2)

/-- The sort key used by `listDue`: the due timestamp (due posts always carry
`some` timestamp; 0 is only a formal default). -/
def dueKey (p : SPost) : Nat := p.scheduled_at.getD 0

instance dueKeyLEDecidable :
    DecidableRel (fun p q : SPost => dueKey p ≤ dueKey q) :=
  fun p q => Nat.decLe _ _

instance dueKeyLETotal : IsTotal SPost (fun p q => dueKey p ≤ dueKey q) :=
  ⟨fun p q => Nat.le_total _ _⟩

instance dueKeyLETrans : IsTrans SPost (fun p q => dueKey p ≤ dueKey q) :=
  ⟨fun _ _ _ => Nat.le_trans⟩

/-- Modelled from the spec: `listDue(now)` (spec §4.4, `server.py` not under
src/): the posts with status `scheduled` and `scheduled_at <= now`, ordered by
`scheduled_at` ascending. -/
def listDue (now : Nat) (store : List SPost) : List SPost :=
  List.insertionSort (fun p q => dueKey p ≤ dueKey q) (store.filter (isDue now))

/-- `listDue` as an operation on the store: it returns its result together
with the (unchanged) store, making the read-only nature of the query
explicit. -/
def listDueOp (now : Nat) (store : List SPost) : List SPost × List SPost :=
  (listDue now store, store)

/-! ## Workspace / RBAC (spec §4.3) -/

/-- Invite status (spec §3, Invite). -/
inductive InviteStatus
  | pending
  | accepted
  | declined
  | expired
  deriving DecidableEq, Repr

/-- A workspace invite (spec §3), scoped to one tenant's workspace. -/
structure Invite where
  invite_id : Nat
  email : String
  role : Role
  expires_at : Nat
  status : InviteStatus
  deriving DecidableEq, Repr

/-- A membership record (spec §3), scoped to one tenant's workspace. -/
structure Membership where
  user_id : Nat
  role : Role
  deriving DecidableEq, Repr

/-- One tenant's workspace state: its invites and memberships. -/
structure Workspace where
  invites : List Invite
  members : List Membership
  deriving DecidableEq, Repr

/-- Result of `acceptInvite` (spec §4.3 and §6: 410 expired / 409 already
resolved). -/
inductive AcceptOutcome
  | accepted (m : Membership)
  | notFound
  | inviteExpired
  | inviteAlreadyResolved
  deriving DecidableEq, Repr

/-- Modelled from the spec: `acceptInvite` (spec §4.3, `server.py` not under
src/): "fails with `InviteExpired` if past expiry, `InviteAlreadyResolved` if
status is not pending.  On success, atomically marks invite accepted and
creates exactly one Membership" — a single state update appending one
membership and marking the invite accepted. -/
def acceptInvite (now : Nat) (ws : Workspace) (inviteId userId : Nat) :
    AcceptOutcome × Workspace :=
  match ws.invites.find? (fun i => i.invite_id == inviteId) with
  | none => (.notFound, ws)
  | some inv =>
      if inv.expires_at < now then (.inviteExpired, ws)
      else if inv.status ≠ .pending then (.inviteAlreadyResolved, ws)
      else
        let m : Membership := { user_id := userId, role := inv.role }
        (.accepted m,
         { invites := ws.invites.map (fun i =>
             if i.invite_id == inviteId then { i with status := .accepted } else i),
           members := m :: ws.members })

/-- Modelled from the spec: `updateRole` (spec §4.3, `server.py` not under
src/): "only owner/admin may change roles; nobody may change or remove the
`owner`; an admin cannot promote another member to owner."  Together with the
§3 invariant (exactly one `owner` membership per tenant) and invites never
carrying the owner role (§4.3 `invite`), `updateRole` never assigns the owner
role, so the final check denies `newRole = owner` for every actor. -/
def updateRole (acting target : Membership) (newRole : Role) :
    Except DenyReason Membership :=
  if acting.role ≠ .owner ∧ acting.role ≠ .admin then .error .InsufficientRole
  else if target.role = .owner then .error .InsufficientRole
  else if newRole = .owner then .error .InsufficientRole
  else .ok { target with role := newRole }

/-- Modelled from the spec: `removeMember` (spec §4.3, `server.py` not under
src/): "same actor constraints as role update; cannot remove self if self is
the sole owner" — and by "nobody may change or remove the `owner`", removing
any owner membership is denied. -/
def removeMember (acting target : Membership) : Except DenyReason Unit :=
  if acting.role ≠ .owner ∧ acting.role ≠ .admin then .error .InsufficientRole
  else if target.role = .owner then .error .InsufficientRole
  else .ok ()

/-- Number of owner memberships in a tenant's member list (the §3 invariant
requires it to be exactly 1). -/
def ownerCount (ms : List Membership) : Nat :=
  (ms.filter (fun m => m.role == .owner)).length

/-- Effect of a (possibly denied) `updateRole` call on the tenant's member
list: on success the target entry is replaced by the updated membership, on
denial nothing changes. -/
def applyUpdateRole (ms : List Membership) (acting target : Membership)
    (newRole : Role) : List Membership :=
  match updateRole acting target newRole with
  | .error _ => ms
  | .ok m2 => ms.map (fun m => if m = target then m2 else m)

/-- Effect of a (possibly denied) `removeMember` call on the tenant's member
list. -/
def applyRemoveMember (ms : List Membership) (acting target : Membership) :
    List Membership :=
  match removeMember acting target with
  | .error _ => ms
  | .ok _ => ms.filter (fun m => m ≠ target)

/-! ## Plan pricing catalogs (C10) -/

/-- `pricingPlans` of the public landing page (LandingPage.jsx lines 58-81):
name, price string and period of each tier. -/
def pricingPlans : List (String × String × String) :=
  [("Starter", "$29", "/month"),
   ("Professional", "$79", "/month"),
   ("Enterprise", "$199", "/month")]

/-- The tiers quoted by the SubscriptionGuard upgrade prompt
(SubscriptionGuard.jsx line 79): "Choose from Starter ($29/mo), Professional
($79/mo), or Enterprise ($199/mo)". -/
def subscriptionGuardTiers : List (String × String) :=
  [("Starter", "$29/mo"), ("Professional", "$79/mo"), ("Enterprise", "$199/mo")]

/-- The paid rows of the PRD "Subscription Plans" table
(src/unnamed/part_000 lines 125-131), excluding the $0 Free Trial row. -/
def prdPaidPlans : List (String × String) :=
  [("Starter", "$29/mo"), ("Professional", "$79/mo"), ("Enterprise", "$199/mo")]

/-- The leading run of digit characters. -/
def takeDigits : List Char → List Char
  | [] => []
  | c :: cs => if c.isDigit then c :: takeDigits cs else []

/-- Value of a digit-character run, most significant first. -/
def digitsVal : List Char → Nat → Nat
  | [], acc => acc
  | c :: cs, acc => digitsVal cs (acc * 10 + (c.toNat - 48))

/-- The dollar amount named by a price string: the digits following a leading
dollar sign (so "$29", "$29/mo" and "$29/month" all name 29). -/
def dollarAmount (s : String) : Option Nat :=
  match s.data with
  | '$' :: rest =>
      match takeDigits rest with
      | [] => none
      | ds => some (digitsVal ds 0)
  | _ => none

/-! ## Concrete inputs for witnesses and counterexamples -/

/-- A concrete Starter-like plan: every numeric limit 100 (no unlimited
sentinel) and, per the PRD table ("No AI"), the `ai_content` flag off while
`lead_capture` is on. -/
def cPlan : Plan :=
  { name := "Starter", monthly_price := 29, limits := fun _ => (100 : Int),
    features := fun f =>
      match f with
      | .ai_content => false
      | .lead_capture => true
      | .white_label => false
      | .api_access => false }

/-- A concrete expired subscription state. -/
def cExpiredSub : SubscriptionState :=
  { is_expired := true, days_remaining := some 0 }

/-- A concrete active (non-expired) subscription state. -/
def cActiveSub : SubscriptionState :=
  { is_expired := false, days_remaining := some 10 }

/-- A concrete usage snapshot: zero everywhere. -/
def cUsageZero : Counter → Nat := fun _ => 0

/-- A concrete usage snapshot: 100 everywhere (at the `cPlan` limit). -/
def cUsageFull : Counter → Nat := fun _ => 100

/-- The form state of the C9 counterexample: pending hashtag input
"##social". -/
def c9Form : PostForm := { initialForm with hashtagInput := "##social" }

/-- A concrete scheduled post, due at time 5. -/
def cDuePost : SPost :=
  { post_id := 1, status := .scheduled, scheduled_at := some 5,
    publish_result := none }

/-- A second concrete scheduled post, due at time 7. -/
def cDuePost2 : SPost :=
  { post_id := 2, status := .scheduled, scheduled_at := some 7,
    publish_result := none }

/-- A concrete already-published post. -/
def cPublishedPost : SPost :=
  { post_id := 3, status := .published, scheduled_at := some 2,
    publish_result := some 11 }

/-- A connector that fails on post 1 and succeeds (with result 42) on every
other post. -/
def cConnector : SPost → ConnOutcome :=
  fun p => if p.post_id = 1 then .fail else .ok 42

/-- A concrete pending invite (id 1, editor role, expiring at time 100). -/
def cInvite : Invite :=
  { invite_id := 1, email := "a@b.c", role := .editor, expires_at := 100,
    status := .pending }

/-- A concrete workspace holding `cInvite` and a sole owner membership. -/
def cWorkspace : Workspace :=
  { invites := [cInvite], members := [{ user_id := 1, role := .owner }] }

/-- A concrete owner membership. -/
def cOwnerMember : Membership := { user_id := 1, role := .owner }

/-- A concrete admin membership. -/
def cAdminMember : Membership := { user_id := 2, role := .admin }

/-- A concrete editor membership. -/
def cEditorMember : Membership := { user_id := 3, role := .editor }

/-- A concrete non-expired subscription response with 2 days remaining (the
warning-banner zone). -/
def cWarnSub : Option SubscriptionData :=
  some { subscription_status := some { is_expired := false, days_remaining := some 2 },
         plan_name := some "Professional" }

/-- The form state of the C9 witness: pending hashtag input " #tag ". -/
def c9FormW : PostForm := { initialForm with hashtagInput := " #tag " }

/-! ## Theorems -/

/-- Claim C1, counterexample: "when usage < limit, authorize returns Allow"
fails as stated for every tenant and every counter-gated creation action, at
two concrete inputs.  First, for an expired tenant a post creation is denied
with Expired even though the plan limit (100) is not the unlimited sentinel
and the usage (0) is strictly below it.  Second, for a NON-expired tenant on
the Starter-like plan with the `ai_content` flag off, the AI-generation
action — gated by the `ai_generations_per_month` counter — is denied outright
with FeatureDisabled although its usage (0) is strictly below its limit
(100). -/
theorem C1_counterexample :
    (isUnlimited (cPlan.limits .posts_per_month) = false ∧
     (cUsageZero .posts_per_month : Int) < cPlan.limits .posts_per_month ∧
     authorize cPlan cExpiredSub cUsageZero .createPost ≠ .Allow ∧
     authorize cPlan cExpiredSub cUsageZero .createPost = .Deny .Expired) ∧
    (cActiveSub.is_expired = false ∧
     actionCounter .aiGenerate = some .ai_generations_per_month ∧
     isUnlimited (cPlan.limits .ai_generations_per_month) = false ∧
     (cUsageZero .ai_generations_per_month : Int) <
       cPlan.limits .ai_generations_per_month ∧
     authorize cPlan cActiveSub cUsageZero .aiGenerate ≠ .Allow ∧
     authorize cPlan cActiveSub cUsageZero .aiGenerate =
       .Deny .FeatureDisabled) := by
  refine ⟨⟨rfl, by decide, ?_, ?_⟩, ⟨rfl, rfl, rfl, by decide, ?_, ?_⟩⟩ <;>
    simp [authorize, cPlan, cExpiredSub, cActiveSub, cUsageZero,
      expiredAllowList, flagDenied, actionFlag, roleDenied, actionCounter]

/-- Claim C1, amended: for every tenant whose subscription is NOT expired and
every creation action gated by a numeric limit counter c that passes the
action's feature-flag and inviter-role checks: when the plan limit for c is
not the unlimited sentinel and the freshly computed usage for c is >= the
limit, authorize returns Deny with reason LimitReached; when usage < limit,
authorize returns Allow (the check is against the count before the
prospective increment). -/
theorem C1_amended_limit_gate (plan : Plan) (sub : SubscriptionState)
    (usage : Counter → Nat) (a : Action) (c : Counter)
    (hexp : sub.is_expired = false)
    (hc : actionCounter a = some c)
    (hflag : flagDenied plan a = false)
    (hrole : roleDenied a = false) :
    (isUnlimited (plan.limits c) = false → plan.limits c ≤ (usage c : Int) →
      authorize plan sub usage a = .Deny .LimitReached) ∧
    ((usage c : Int) < plan.limits c →
      authorize plan sub usage a = .Allow) := by
  constructor
  · intro hu hle
    simp [authorize, hexp, hflag, hrole, hc, hu, hle]
  · intro hlt
    simp [authorize, hexp, hflag, hrole, hc, not_le.mpr hlt]

/-- Claim C1 witness: a non-expired tenant with post usage 0 below limit 100
may create a post; with usage 100 at limit 100 the creation is denied with
LimitReached. -/
theorem C1_amended_limit_gate_witness :
    cActiveSub.is_expired = false ∧
    actionCounter Action.createPost = some .posts_per_month ∧
    flagDenied cPlan .createPost = false ∧
    roleDenied .createPost = false ∧
    authorize cPlan cActiveSub cUsageZero .createPost = .Allow ∧
    authorize cPlan cActiveSub cUsageFull .createPost =
      .Deny .LimitReached :=
  ⟨rfl, rfl, rfl, rfl,
   (C1_amended_limit_gate cPlan cActiveSub cUsageZero .createPost
     .posts_per_month rfl rfl rfl rfl).2 (by decide),
   (C1_amended_limit_gate cPlan cActiveSub cUsageFull .createPost
     .posts_per_month rfl rfl rfl rfl).1 rfl (by decide)⟩

/-- Claim C2: when the subscription is expired, the gate denies every action
with reason Expired except exactly the allow-list — reading the own
subscription, changing plan, and reading/updating the own settings — which it
allows; on the client, any route guarded with `requireSubscription = true`
renders the blocking expiry card whenever `is_expired` is true, and exactly
the routes `/subscription`, `/subscription/success` and `/settings` are
wrapped with `requireSubscription = false`. -/
theorem C2_expired_allowlist :
    (∀ plan sub usage a, sub.is_expired = true →
      (authorize plan sub usage a = .Deny .Expired ↔
        expiredAllowList a = false)) ∧
    (∀ plan sub usage a, sub.is_expired = true → expiredAllowList a = true →
      authorize plan sub usage a = .Allow) ∧
    (∀ a, expiredAllowList a = true ↔
      a = .readOwnSubscription ∨ a = .changePlan ∨ a = .readOwnSettings ∨
        a = .updateOwnSettings) ∧
    (∀ s b, guardIsExpired s = true →
      protectedRouteRender b s =
        if b then .blockedExpired else .childrenOnly) ∧
    (∀ r ∈ appRoutes, (r.guard = some false ↔
      r.path = "/subscription" ∨ r.path = "/subscription/success" ∨
        r.path = "/settings")) := by
  refine ⟨?_, ?_, ?_, ?_, ?_⟩
  · intro plan sub usage a h
    cases a <;>
      simp [authorize, h, expiredAllowList, flagDenied, actionFlag,
        roleDenied, actionCounter]
  · intro plan sub usage a h ha
    cases a <;>
      simp_all [authorize, expiredAllowList, flagDenied, actionFlag,
        roleDenied, actionCounter]
  · intro a
    cases a <;> simp [expiredAllowList]
  · intro s b h
    cases b <;> simp [protectedRouteRender, subscriptionGuardRender, h]
  · decide

/-- Claim C2 witness: with an expired subscription, a creation action is
denied with Expired, changing plan is allowed, and a guarded route renders the
blocking card. -/
theorem C2_expired_allowlist_witness :
    authorize cPlan cExpiredSub cUsageZero .createPost =
      .Deny .Expired ∧
    authorize cPlan cExpiredSub cUsageZero .changePlan = .Allow ∧
    protectedRouteRender true
        (some { subscription_status :=
                  some { is_expired := true, days_remaining := some 0 },
                plan_name := some "Starter" }) =
      .blockedExpired :=
  ⟨(C2_expired_allowlist.1 cPlan cExpiredSub cUsageZero _ rfl).mpr rfl,
   C2_expired_allowlist.2.1 cPlan cExpiredSub cUsageZero .changePlan rfl rfl,
   C2_expired_allowlist.2.2.2.1
     (some { subscription_status :=
               some { is_expired := true, days_remaining := some 0 },
             plan_name := some "Starter" }) true rfl⟩

/-- Claim C3: a created Post has status `scheduled` iff its parsed
`scheduled_at` is present and in the future at creation time; the status is
independent of the caller-supplied payload (in particular of its `status`
field); the client form carries status "draft" by default, "published" after
the Publish Now click, and `handleSubmit` sends the form status verbatim. -/
theorem C3_status_derived_from_schedule :
    (∀ p sched now, ((createPost p sched now).status = .scheduled ↔
      ∃ t, sched = some t ∧ now < t)) ∧
    (∀ p q sched now,
      (createPost p sched now).status = (createPost q sched now).status) ∧
    initialForm.status = "draft" ∧
    (∀ f, (clickPublishNow f).status = "published") ∧
    (∀ f, (mkPayload f).status = f.status) := by
  refine ⟨?_, fun p q sched now => rfl, rfl, fun f => rfl, fun f => rfl⟩
  intro p sched now
  cases sched with
  | none => simp [createPost, derivedStatus]
  | some t =>
      by_cases h : now < t <;> simp [createPost, derivedStatus, h]

/-- Claim C3 witness: a payload carrying status "draft" but a future
`scheduled_at` (10 > 5) is stored as `scheduled`. -/
theorem C3_status_witness :
    (createPost (mkPayload initialForm) (some 10) 5).status = .scheduled :=
  (C3_status_derived_from_schedule.1 (mkPayload initialForm) (some 10) 5).mpr
    ⟨10, rfl, by decide⟩

/-- Claim C8: the guard blocks only when `is_expired` is true; a failed fetch
(`subscription = null`) fails open and renders the children; for a non-expired
subscription the render is never the blocking card, and the warning banner
appears exactly when `0 < days_remaining ≤ 3`. -/
theorem C8_guard_fail_open :
    (∀ s, subscriptionGuardRender s = .blockedExpired ↔
      guardIsExpired s = true) ∧
    subscriptionGuardRender none = .childrenOnly ∧
    (∀ s, guardIsExpired s = false →
      ((subscriptionGuardRender s = .warnBanner) ↔
        (∃ d, guardDaysRemaining s = some d ∧ 0 < d ∧ d ≤ 3))) ∧
    (∀ s, guardIsExpired s = false →
      subscriptionGuardRender s ≠ .blockedExpired) := by
  refine ⟨?_, rfl, ?_, ?_⟩
  · intro s
    by_cases h : guardIsExpired s
    · simp [subscriptionGuardRender, h]
    · cases hd : guardDaysRemaining s with
      | none => simp [subscriptionGuardRender, h, hd]
      | some d =>
          by_cases hb : d ≤ 3 ∧ 0 < d <;>
            simp [subscriptionGuardRender, h, hd, hb]
  · intro s h
    cases hd : guardDaysRemaining s with
    | none => simp [subscriptionGuardRender, h, hd]
    | some d =>
        by_cases hb : d ≤ 3 ∧ 0 < d <;>
          simp [subscriptionGuardRender, h, hd, hb] <;> omega
  · intro s h
    cases hd : guardDaysRemaining s with
    | none => simp [subscriptionGuardRender, h, hd]
    | some d =>
        by_cases hb : d ≤ 3 ∧ 0 < d <;>
          simp [subscriptionGuardRender, h, hd, hb]

/-- Claim C8 witness: a non-expired subscription with 2 days remaining renders
the warning banner (children shown, not blocked). -/
theorem C8_guard_fail_open_witness :
    guardIsExpired cWarnSub = false ∧
    subscriptionGuardRender cWarnSub = .warnBanner :=
  ⟨rfl, (C8_guard_fail_open.2.2.1 cWarnSub rfl).mpr ⟨2, rfl, by decide, by decide⟩⟩

/-- Claim C10: the landing-page pricing table, the SubscriptionGuard upgrade
prompt and the PRD plan table name the same three paid tiers at the same
monthly prices — Starter 29, Professional 79, Enterprise 199 dollars. -/
theorem C10_price_catalog_agreement :
    pricingPlans.map (fun t => (t.1, dollarAmount t.2.1)) =
      subscriptionGuardTiers.map (fun t => (t.1, dollarAmount t.2)) ∧
    subscriptionGuardTiers.map (fun t => (t.1, dollarAmount t.2)) =
      prdPaidPlans.map (fun t => (t.1, dollarAmount t.2)) ∧
    pricingPlans.map (fun t => (t.1, dollarAmount t.2.1)) =
      [("Starter", some 29), ("Professional", some 79),
       ("Enterprise", some 199)] := by
  decide

/-- The sweep output is the pointwise image of the store: each due post gets
its own connector outcome applied, every other post is untouched — so the
outcome at one post cannot influence any other position. -/
theorem processSweep_fst (c : SPost → ConnOutcome) (now : Nat) (s : List SPost) :
    (processSweep c now s).1 =
      s.map (fun p => if isDue now p then applyOutcome p (c p) else p) := by
  induction s with
  | nil => rfl
  | cons p ps ih =>
      cases h : isDue now p <;> simp [processSweep, h, ih]

/-- The invocation log of the sweep is exactly the due posts, once each, in
store order. -/
theorem processSweep_snd (c : SPost → ConnOutcome) (now : Nat) (s : List SPost) :
    (processSweep c now s).2 = (s.filter (isDue now)).map SPost.post_id := by
  induction s with
  | nil => rfl
  | cons p ps ih =>
      cases h : isDue now p <;> simp [processSweep, h, ih, List.filter_cons]

/-- Claim C4: in one `process(now)` sweep, the connector is invoked exactly
once per due post (the log equals the due posts in order); a due post whose
connector call fails is set to `failed` and retained in place while the posts
after it are processed exactly as they would be on their own; a due post whose
call succeeds is set to `published` with the result attached; an
already-published post is never due (so it is skipped) and is retained
unchanged. -/
theorem C4_process_batch :
    (∀ c now s, (processSweep c now s).2 =
      (s.filter (isDue now)).map SPost.post_id) ∧
    (∀ c now s₁ p s₂, isDue now p = true → c p = .fail →
      (processSweep c now (s₁ ++ p :: s₂)).1 =
        (processSweep c now s₁).1 ++
          { p with status := .failed } :: (processSweep c now s₂).1) ∧
    (∀ c now s p, p ∈ s → isDue now p = true → ∀ r, c p = .ok r →
      { p with status := .published, publish_result := some r } ∈
        (processSweep c now s).1) ∧
    (∀ now p, p.status = .published → isDue now p = false) ∧
    (∀ c now s p, p ∈ s → p.status = .published →
      p ∈ (processSweep c now s).1) := by
  have hpub : ∀ (now : Nat) (p : SPost), p.status = .published →
      isDue now p = false := by
    intro now p h
    simp [isDue, h]
  refine ⟨processSweep_snd, ?_, ?_, hpub, ?_⟩
  · intro c now s₁ p s₂ hdue hfail
    simp [processSweep_fst, hdue, hfail, applyOutcome]
  · intro c now s p hmem hdue r hok
    rw [processSweep_fst]
    have h2 : (fun q => if isDue now q then applyOutcome q (c q) else q) p =
        { p with status := PostStatus.published,
                 publish_result := some r } := by
      simp [hdue, hok, applyOutcome]
    exact h2 ▸ List.mem_map_of_mem _ hmem
  · intro c now s p hmem hstat
    rw [processSweep_fst]
    have h3 : (fun q => if isDue now q then applyOutcome q (c q) else q) p =
        p := by
      simp [hpub now p hstat]
    exact h3 ▸ List.mem_map_of_mem _ hmem

/-- Claim C4 witness: a batch of two due posts and one published post, with a
connector failing on the first: the first ends `failed`, the second still gets
published with its result, and the published post is retained. -/
theorem C4_process_batch_witness :
    (processSweep cConnector 10 ([] ++ cDuePost :: [cDuePost2, cPublishedPost])).1 =
      (processSweep cConnector 10 []).1 ++
        { cDuePost with status := .failed } ::
          (processSweep cConnector 10 [cDuePost2, cPublishedPost]).1 ∧
    { cDuePost2 with status := .published, publish_result := some 42 } ∈
      (processSweep cConnector 10 [cDuePost, cDuePost2, cPublishedPost]).1 ∧
    cPublishedPost ∈
      (processSweep cConnector 10 [cDuePost, cDuePost2, cPublishedPost]).1 :=
  ⟨C4_process_batch.2.1 cConnector 10 [] cDuePost [cDuePost2, cPublishedPost]
     (by decide) (by decide),
   C4_process_batch.2.2.1 cConnector 10 _ cDuePost2 (by decide) (by decide) 42
     (by decide),
   C4_process_batch.2.2.2.2 cConnector 10 _ cPublishedPost (by decide) rfl⟩

/-- Marking an invite accepted in the store only rewrites the matching entry,
so a search for the same invite id finds the accepted copy. -/
theorem find_update_invite (l : List Invite) (iid : Nat) (inv : Invite)
    (h : l.find? (fun i => i.invite_id == iid) = some inv) :
    (l.map (fun i => if i.invite_id == iid
        then { i with status := InviteStatus.accepted } else i)).find?
      (fun i => i.invite_id == iid) =
      some { inv with status := .accepted } := by
  have hp : inv.invite_id = iid := by
    simpa using List.find?_some h
  rw [List.find?_map]
  have hcomp : ((fun i : Invite => i.invite_id == iid) ∘
      (fun i : Invite => if i.invite_id == iid
        then { i with status := InviteStatus.accepted } else i)) =
      (fun i : Invite => i.invite_id == iid) := by
    funext i
    by_cases hi : i.invite_id = iid <;> simp [hi]
  rw [hcomp, h]
  simp [hp]

/-- Unfolding `acceptInvite` once the invite lookup is known. -/
theorem acceptInvite_eq (now : Nat) (ws : Workspace) (inviteId userId : Nat)
    (inv : Invite)
    (h : ws.invites.find? (fun i => i.invite_id == inviteId) = some inv) :
    acceptInvite now ws inviteId userId =
      if inv.expires_at < now then (.inviteExpired, ws)
      else if inv.status ≠ .pending then (.inviteAlreadyResolved, ws)
      else
        (.accepted { user_id := userId, role := inv.role },
         { invites := ws.invites.map (fun i =>
             if i.invite_id == inviteId
             then { i with status := .accepted } else i),
           members := { user_id := userId, role := inv.role } ::
             ws.members }) := by
  unfold acceptInvite
  rw [h]

/-- Claim C5: on a pending invite within its expiry, the first acceptInvite
atomically marks the invite accepted and appends exactly one Membership; a
second call on the same invite answers InviteAlreadyResolved and leaves the
state untouched; a call on an invite past its expiry answers InviteExpired. -/
theorem C5_accept_invite_once :
    (∀ now ws inviteId userId u2 inv,
      ws.invites.find? (fun i => i.invite_id == inviteId) = some inv →
      inv.status = .pending → now ≤ inv.expires_at →
      (acceptInvite now ws inviteId userId).1 =
          .accepted { user_id := userId, role := inv.role } ∧
      (acceptInvite now ws inviteId userId).2.members =
          { user_id := userId, role := inv.role } :: ws.members ∧
      (acceptInvite now ((acceptInvite now ws inviteId userId).2)
          inviteId u2).1 = .inviteAlreadyResolved ∧
      (acceptInvite now ((acceptInvite now ws inviteId userId).2)
          inviteId u2).2 = (acceptInvite now ws inviteId userId).2) ∧
    (∀ now ws inviteId userId inv,
      ws.invites.find? (fun i => i.invite_id == inviteId) = some inv →
      inv.expires_at < now →
      acceptInvite now ws inviteId userId = (.inviteExpired, ws)) := by
  constructor
  · intro now ws inviteId userId u2 inv hfind hpend hexp
    have hne : ¬ inv.expires_at < now := not_lt.mpr hexp
    have h1 : acceptInvite now ws inviteId userId =
        (.accepted { user_id := userId, role := inv.role },
         { invites := ws.invites.map (fun i =>
             if i.invite_id == inviteId
             then { i with status := .accepted } else i),
           members := { user_id := userId, role := inv.role } ::
             ws.members }) := by
      rw [acceptInvite_eq now ws inviteId userId inv hfind]
      simp [hne, hpend]
    have hfind2 := find_update_invite ws.invites inviteId inv hfind
    have h2 : acceptInvite now ((acceptInvite now ws inviteId userId).2)
        inviteId u2 =
        (.inviteAlreadyResolved, (acceptInvite now ws inviteId userId).2) := by
      rw [h1, acceptInvite_eq now _ inviteId u2 _ hfind2]
      simp [hne]
    exact ⟨by rw [h1], by rw [h1], by rw [h2], by rw [h2]⟩
  · intro now ws inviteId userId inv hfind hlt
    rw [acceptInvite_eq now ws inviteId userId inv hfind]
    simp [hlt]

/-- Claim C5 witness: the concrete workspace with one pending invite — first
accept succeeds and appends the membership, the second answers
InviteAlreadyResolved without change, and once past the expiry the answer is
InviteExpired. -/
theorem C5_accept_invite_once_witness :
    (acceptInvite 10 cWorkspace 1 5).1 =
        .accepted { user_id := 5, role := .editor } ∧
    (acceptInvite 10 cWorkspace 1 5).2.members =
        { user_id := 5, role := .editor } :: cWorkspace.members ∧
    (acceptInvite 10 ((acceptInvite 10 cWorkspace 1 5).2) 1 6).1 =
        .inviteAlreadyResolved ∧
    acceptInvite 200 cWorkspace 1 5 = (.inviteExpired, cWorkspace) :=
  ⟨(C5_accept_invite_once.1 10 cWorkspace 1 5 6 cInvite (by decide) rfl
      (by decide)).1,
   (C5_accept_invite_once.1 10 cWorkspace 1 5 6 cInvite (by decide) rfl
      (by decide)).2.1,
   (C5_accept_invite_once.1 10 cWorkspace 1 5 6 cInvite (by decide) rfl
      (by decide)).2.2.1,
   C5_accept_invite_once.2 200 cWorkspace 1 5 cInvite (by decide) (by decide)⟩

/-- Replacing non-owner entries of the member list by a non-owner membership
leaves the number of owners unchanged. -/
theorem ownerCount_map_replace (ms : List Membership) (target m2 : Membership)
    (ht : target.role ≠ .owner) (hm2 : m2.role ≠ .owner) :
    ownerCount (ms.map (fun m => if m = target then m2 else m)) =
      ownerCount ms := by
  induction ms with
  | nil => rfl
  | cons m ms ih =>
      by_cases hm : m = target
      · subst hm
        simp [ownerCount, List.filter_cons, ht, hm2] at *
        exact ih
      · by_cases ho : m.role = .owner <;>
          simp [ownerCount, List.filter_cons, hm, ho] at * <;> exact ih

/-- Dropping entries equal to a non-owner membership leaves the number of
owners unchanged. -/
theorem ownerCount_filter_ne (ms : List Membership) (target : Membership)
    (ht : target.role ≠ .owner) :
    ownerCount (ms.filter (fun m => m ≠ target)) = ownerCount ms := by
  induction ms with
  | nil => rfl
  | cons m ms ih =>
      by_cases hm : m = target
      · subst hm
        simp [ownerCount, List.filter_cons, ht] at *
        exact ih
      · by_cases ho : m.role = .owner <;>
          simp [ownerCount, List.filter_cons, hm, ho] at * <;> exact ih

/-- Claim C6: updateRole and removeMember aimed at an owner membership are
denied regardless of the actor role; no updateRole call can assign the owner
role (so an admin can never promote another member to owner); and both
operations, allowed or denied, leave the number of owner memberships of the
tenant unchanged — a state with exactly one owner keeps exactly one owner. -/
theorem C6_sole_owner_protected :
    (∀ acting target newRole, target.role = .owner →
      updateRole acting target newRole = .error .InsufficientRole) ∧
    (∀ acting target, target.role = .owner →
      removeMember acting target = .error .InsufficientRole) ∧
    (∀ acting target, updateRole acting target .owner =
      .error .InsufficientRole) ∧
    (∀ ms acting target newRole,
      ownerCount (applyUpdateRole ms acting target newRole) = ownerCount ms) ∧
    (∀ ms acting target,
      ownerCount (applyRemoveMember ms acting target) = ownerCount ms) := by
  refine ⟨?_, ?_, ?_, ?_, ?_⟩
  · intro acting target newRole h
    simp [updateRole, h]
  · intro acting target h
    simp [removeMember, h]
  · intro acting target
    simp [updateRole]
  · intro ms acting target newRole
    unfold applyUpdateRole
    cases hur : updateRole acting target newRole with
    | error e => rfl
    | ok m2 =>
        unfold updateRole at hur
        split at hur
        · exact absurd hur (by simp)
        · split at hur
          · exact absurd hur (by simp)
          · split at hur
            · exact absurd hur (by simp)
            · rename_i hact htgt hnew
              cases hur
              exact ownerCount_map_replace ms target _ htgt hnew
  · intro ms acting target
    unfold applyRemoveMember
    cases hrm : removeMember acting target with
    | error e => rfl
    | ok u =>
        unfold removeMember at hrm
        split at hrm
        · exact absurd hrm (by simp)
        · split at hrm
          · exact absurd hrm (by simp)
          · rename_i hact htgt
            exact ownerCount_filter_ne ms target htgt

/-- Claim C6 witness: an admin may not demote or remove the sole owner, may
not promote an editor to owner; a successful demotion of an editor by the
owner keeps the owner count at one. -/
theorem C6_sole_owner_protected_witness :
    updateRole cAdminMember cOwnerMember .editor = .error .InsufficientRole ∧
    removeMember cAdminMember cOwnerMember = .error .InsufficientRole ∧
    updateRole cAdminMember cEditorMember .owner = .error .InsufficientRole ∧
    ownerCount (applyUpdateRole [cOwnerMember, cEditorMember] cOwnerMember
      cEditorMember .viewer) = ownerCount [cOwnerMember, cEditorMember] :=
  ⟨C6_sole_owner_protected.1 cAdminMember cOwnerMember .editor rfl,
   C6_sole_owner_protected.2.1 cAdminMember cOwnerMember rfl,
   C6_sole_owner_protected.2.2.1 cAdminMember cEditorMember,
   C6_sole_owner_protected.2.2.2.1 [cOwnerMember, cEditorMember] cOwnerMember
     cEditorMember .viewer⟩

/-- Being due unfolded to a proposition: scheduled status and a present due
time that has passed. -/
theorem isDue_iff (now : Nat) (p : SPost) :
    isDue now p = true ↔
      p.status = .scheduled ∧ ∃ t, p.scheduled_at = some t ∧ t ≤ now := by
  cases hs : p.scheduled_at with
  | none => simp [isDue, hs]
  | some t => simp [isDue, hs]

/-- Claim C7: listDue(now) holds exactly the posts with status scheduled and
scheduled_at ≤ now (as a set, and as a permutation of the filtered store),
sorted by due time ascending; as a store operation it leaves the store
unchanged, so a second call with the same now and no intervening writes
returns the identical sequence. -/
theorem C7_listDue_spec :
    (∀ now store p, p ∈ listDue now store ↔
      p ∈ store ∧ p.status = .scheduled ∧
        ∃ t, p.scheduled_at = some t ∧ t ≤ now) ∧
    (∀ now store,
      List.Sorted (fun p q => dueKey p ≤ dueKey q) (listDue now store)) ∧
    (∀ now store, List.Perm (listDue now store) (store.filter (isDue now))) ∧
    (∀ now store,
      (listDueOp now store).2 = store ∧
      (listDueOp now ((listDueOp now store).2)).1 =
        (listDueOp now store).1) := by
  refine ⟨?_, ?_, ?_, fun now store => ⟨rfl, rfl⟩⟩
  · intro now store p
    rw [listDue, List.mem_insertionSort, List.mem_filter, isDue_iff]
  · intro now store
    exact List.sorted_insertionSort _ _
  · intro now store
    exact List.perm_insertionSort _ _

/-- Claim C7 witness: the due post is listed at time 10, and the two query
calls in sequence return the same list. -/
theorem C7_listDue_spec_witness :
    cDuePost ∈ listDue 10 [cPublishedPost, cDuePost] ∧
    (listDueOp 10 ((listDueOp 10 [cDuePost]).2)).1 =
      (listDueOp 10 [cDuePost]).1 :=
  ⟨(C7_listDue_spec.1 10 [cPublishedPost, cDuePost] cDuePost).mpr
     ⟨by decide, rfl, 5, rfl, by decide⟩,
   (C7_listDue_spec.2.2.2 10 [cDuePost]).2⟩

/-- Claim C9, counterexample: with pending input "##social" the inserted tag
is "#social" — JS replace removes only the first occurrence of the hash sign,
so the inserted tag still contains one, refuting the wording that addHashtag
inserts the input with any hash character removed. -/
theorem C9_counterexample :
    (addHashtag c9Form).hashtags = ["#social"] ∧
    (addHashtag c9Form).hashtags ≠ ["social"] := by
  decide

/-- Claim C9, amended: addHashtag inserts the pending input with the FIRST
hash character removed and surrounding whitespace trimmed, inserts nothing
when the input is blank or the tag is already present (so manual adds keep
the list duplicate-free), and clears the input on insert; removeHashtag
leaves a list with no occurrence of the tag and preserves all other tags in
order. -/
theorem C9_amended_hashtags (f : PostForm) :
    (jsTrim f.hashtagInput = "" → addHashtag f = f) ∧
    (∀ tag, tag = jsTrim (removeFirstHash f.hashtagInput) →
      jsTrim f.hashtagInput ≠ "" →
      ((tag ∈ f.hashtags → addHashtag f = f) ∧
       (tag ∉ f.hashtags →
         (addHashtag f).hashtags = f.hashtags ++ [tag] ∧
         (addHashtag f).hashtagInput = "" ∧
         (addHashtag f).title = f.title ∧
         (addHashtag f).caption = f.caption ∧
         (addHashtag f).platforms = f.platforms ∧
         (addHashtag f).scheduled_at = f.scheduled_at ∧
         (addHashtag f).status = f.status))) ∧
    (f.hashtags.Nodup → (addHashtag f).hashtags.Nodup) ∧
    (∀ tag, tag ∉ (removeHashtag tag f).hashtags) ∧
    (∀ tag, (removeHashtag tag f).hashtags.Sublist f.hashtags) ∧
    (∀ tag t, t ∈ (removeHashtag tag f).hashtags ↔
      t ∈ f.hashtags ∧ t ≠ tag) := by
  refine ⟨?_, ?_, ?_, ?_, ?_, ?_⟩
  · intro h
    simp [addHashtag, h]
  · intro tag htag hne
    subst htag
    constructor
    · intro hc
      simp [addHashtag, hne, hc]
    · intro hc
      refine ⟨?_, ?_, ?_, ?_, ?_, ?_, ?_⟩ <;> simp [addHashtag, hne, hc]
  · intro hnd
    by_cases hne : jsTrim f.hashtagInput = ""
    · simp [addHashtag, hne, hnd]
    · by_cases hc : jsTrim (removeFirstHash f.hashtagInput) ∈ f.hashtags
      · simp [addHashtag, hne, hc, hnd]
      · simp [addHashtag, hne, hc, List.nodup_append, hnd]
  · intro tag
    simp [removeHashtag]
  · intro tag
    exact List.filter_sublist _
  · intro tag t
    simp [removeHashtag]

/-- Claim C9 witness: input " #tag " is inserted as "tag" (first hash removed,
trimmed), the input is cleared, and removing "tag" afterwards leaves no
occurrence. -/
theorem C9_amended_hashtags_witness :
    (addHashtag c9FormW).hashtags = c9FormW.hashtags ++ ["tag"] ∧
    (addHashtag c9FormW).hashtagInput = "" ∧
    "tag" ∉ (removeHashtag "tag" (addHashtag c9FormW)).hashtags :=
  ⟨(((C9_amended_hashtags c9FormW).2.1 "tag" (by decide) (by decide)).2
     (by decide)).1,
   (((C9_amended_hashtags c9FormW).2.1 "tag" (by decide) (by decide)).2
     (by decide)).2.1,
   (C9_amended_hashtags (addHashtag c9FormW)).2.2.2.1 "tag"⟩

end SocialFlow
